import Mathlib

/-!
Verification of the Web-Browser Applet protocol decoder and mode-dispatch
engine (`src/core/hle/service/am/applets/web_browser.cpp`).

Byte buffers are modelled as `List Nat` (each element one byte); strings
are byte lists as in C++ (`'?'` is byte 63, `NUL` is byte 0).  Multi-byte
fields are read little-endian.  The collaborator interfaces (content
provider, system NAND, synthesized archives, patch manager, host
filesystem, frontend) are modelled as explicit parameters, and the I/O the
applet performs through them is recorded as explicit effect lists.
-/

/-- Little-endian value of a byte list (each element reduced mod 256). -/
def bytesToNat : List Nat → Nat
  | [] => 0
  | b :: bs => b % 256 + 256 * bytesToNat bs

/-- Read `n` bytes of `buf` starting at offset `off` (models `memcpy` from
`buf.data() + off`). -/
def readBytes (buf : List Nat) (off n : Nat) : List Nat :=
  (buf.drop off).take n

/-- Read a little-endian `u16` at offset `off`. -/
def readU16 (buf : List Nat) (off : Nat) : Nat :=
  bytesToNat (readBytes buf off 2)

/-- Read a single byte (`u8`) at offset `off`. -/
def readU8 (buf : List Nat) (off : Nat) : Nat :=
  bytesToNat (readBytes buf off 1)

/-- Read a little-endian `u32` at offset `off`. -/
def readU32 (buf : List Nat) (off : Nat) : Nat :=
  bytesToNat (readBytes buf off 4)

/-- Modelled from the spec: the fixed-size `WebArgHeader` (the header file
declaring it is not part of the sources here).  The spec gives
`totalEntryCount : u16` and `modeTag : u8` plus reserved padding to a fixed
compile-time byte width, which we fix at 8 bytes. -/
structure WebArgHeader where
  total_tlv_entries : Nat
  shim_kind : Nat
deriving DecidableEq

/-- Modelled from the spec: the compile-time constant byte width of
`WebArgHeader`. -/
def sizeof_WebArgHeader : Nat := 8

/-- Modelled from the spec: the fixed-size `WebArgInputTLV` sub-header is
`\x7b tag : u32, dataSize : u32 \x7d`, 8 bytes. -/
def sizeof_WebArgInputTLV : Nat := 8

/-- Decode the `WebArgHeader` from the first `sizeof_WebArgHeader` bytes
(models the `memcpy(&web_arg_header, web_arg.data(), sizeof(WebArgHeader))`
in `ReadWebArgs`): `total_tlv_entries` is the `u16` at offset 0 and
`shim_kind` the mode-tag byte at offset 2. -/
def decodeWebArgHeader (buf : List Nat) : WebArgHeader :=
  { total_tlv_entries := readU16 buf 0, shim_kind := readU8 buf 2 }

/-- The `WebArgInputTLVMap`: a map from TLV tag to raw payload bytes,
modelled as an association list with unique keys. -/
abbrev TLVMap := List (Nat × List Nat)

/-- Models `std::map::insert_or_assign`: the binding for `k` is replaced
by (or extended with) `v`. -/
def tlvInsertOrAssign (k : Nat) (v : List Nat) (m : TLVMap) : TLVMap :=
  m.filter (fun e => !(e.1 == k)) ++ [(k, v)]

/-- Models `std::map::find`: the payload bound to tag `k`, if any. -/
def tlvGet (m : TLVMap) (k : Nat) : Option (List Nat) :=
  (m.find? (fun e => e.1 == k)).map (fun e => e.2)

/-- One iteration of the `ReadWebArgs` loop at offset `off`: `none` when the
remaining bytes cannot hold the 8-byte TLV sub-header, or cannot hold the
payload of the declared `arg_data_size`; otherwise the `(tag, payload)` pair
together with the offset just past the entry. -/
def parseTLVEntry (buf : List Nat) (off : Nat) : Option ((Nat × List Nat) × Nat) :=
  if buf.length < off + sizeof_WebArgInputTLV then none
  else if buf.length < off + sizeof_WebArgInputTLV + readU32 buf (off + 4) then none
  else some ((readU32 buf off, readBytes buf (off + sizeof_WebArgInputTLV) (readU32 buf (off + 4))),
             off + sizeof_WebArgInputTLV + readU32 buf (off + 4))

/-- The `for (i = 0; i < total_tlv_entries; ++i)` loop of `ReadWebArgs`:
inserts each structurally complete entry into the map and stops silently at
the first entry that does not fit. -/
def readWebArgsLoop (buf : List Nat) : Nat → Nat → TLVMap → TLVMap
  | 0, _, m => m
  | n + 1, off, m =>
    match parseTLVEntry buf off with
    | none => m
    | some (e, off2) => readWebArgsLoop buf n off2 (tlvInsertOrAssign e.1 e.2 m)

/-- Embedding of `ReadWebArgs`: decodes the header, returns an empty map for
a buffer of exactly header size, and otherwise runs the TLV loop starting
right after the header. -/
def ReadWebArgs (web_arg : List Nat) : WebArgHeader × TLVMap :=
  let hdr := decodeWebArgHeader web_arg
  if web_arg.length = sizeof_WebArgHeader then (hdr, [])
  else (hdr, readWebArgsLoop web_arg hdr.total_tlv_entries sizeof_WebArgHeader [])

/-- Specification companion of the loop: the list of structurally complete
entries (with the end offset of each) parsed in order from offset `off`,
stopping at the first entry that does not fit or after the fuel runs out. -/
def tlvEntriesFrom (buf : List Nat) : Nat → Nat → List ((Nat × List Nat) × Nat)
  | 0, _ => []
  | n + 1, off =>
    match parseTLVEntry buf off with
    | none => []
    | some (e, off2) => (e, off2) :: tlvEntriesFrom buf n off2

/-- Build a `TLVMap` from a list of `(tag, payload)` pairs by repeated
`insert_or_assign`. -/
def tlvMapOfEntries (es : List (Nat × List Nat)) : TLVMap :=
  es.foldl (fun m e => tlvInsertOrAssign e.1 e.2 m) []

example : (ReadWebArgs [2, 0, 3, 0, 0, 0, 0, 0]).2 = [] := by decide

example :
    (ReadWebArgs ([1, 0, 3, 0, 0, 0, 0, 0] ++ [7, 0, 0, 0, 2, 0, 0, 0, 9, 9])).2 =
      [(7, [9, 9])] := by decide

theorem readBytes_take (buf : List Nat) (k off n : Nat) (h : off + n ≤ k) :
    readBytes (buf.take k) off n = readBytes buf off n := by
  unfold readBytes
  rw [List.drop_take, List.take_take, Nat.min_eq_left (by omega)]

theorem readU16_take (buf : List Nat) (k off : Nat) (h : off + 2 ≤ k) :
    readU16 (buf.take k) off = readU16 buf off := by
  unfold readU16; rw [readBytes_take buf k off 2 h]

theorem readU8_take (buf : List Nat) (k off : Nat) (h : off + 1 ≤ k) :
    readU8 (buf.take k) off = readU8 buf off := by
  unfold readU8; rw [readBytes_take buf k off 1 h]

theorem readU32_take (buf : List Nat) (k off : Nat) (h : off + 4 ≤ k) :
    readU32 (buf.take k) off = readU32 buf off := by
  unfold readU32; rw [readBytes_take buf k off 4 h]

theorem decodeWebArgHeader_take (buf : List Nat) (k : Nat) (h : 3 ≤ k) :
    decodeWebArgHeader (buf.take k) = decodeWebArgHeader buf := by
  unfold decodeWebArgHeader
  rw [readU16_take buf k 0 (by omega), readU8_take buf k 2 (by omega)]

theorem parseTLVEntry_take (buf : List Nat) (k off : Nat) :
    parseTLVEntry (buf.take k) off =
      (parseTLVEntry buf off).bind (fun r => if r.2 ≤ k then some r else none) := by
  have hlen : (buf.take k).length = min k buf.length := by simp
  simp only [parseTLVEntry, sizeof_WebArgInputTLV]
  by_cases h1 : buf.length < off + 8
  · rw [if_pos h1, if_pos (by omega : (buf.take k).length < off + 8)]
    rfl
  · rw [if_neg h1]
    by_cases hk8 : off + 8 ≤ k
    · have hsz : readU32 (buf.take k) (off + 4) = readU32 buf (off + 4) :=
        readU32_take buf k (off + 4) (by omega)
      have htag : readU32 (buf.take k) off = readU32 buf off :=
        readU32_take buf k off (by omega)
      rw [if_neg (by omega : ¬ (buf.take k).length < off + 8), hsz, htag]
      by_cases h2 : buf.length < off + 8 + readU32 buf (off + 4)
      · rw [if_pos h2, if_pos (by omega)]
        rfl
      · rw [if_neg h2]
        by_cases h3 : off + 8 + readU32 buf (off + 4) ≤ k
        · rw [if_neg (by omega : ¬ (buf.take k).length < off + 8 + readU32 buf (off + 4)),
              readBytes_take buf k (off + 8) (readU32 buf (off + 4)) (by omega)]
          simp [h3]
        · rw [if_pos (by omega : (buf.take k).length < off + 8 + readU32 buf (off + 4))]
          simp [h3]
    · rw [if_pos (by omega : (buf.take k).length < off + 8)]
      by_cases h2 : buf.length < off + 8 + readU32 buf (off + 4)
      · rw [if_pos h2]; rfl
      · rw [if_neg h2]
        simp only [Option.some_bind]
        rw [if_neg (by omega : ¬ off + 8 + readU32 buf (off + 4) ≤ k)]

theorem tlvEntriesFrom_take (buf : List Nat) (k : Nat) :
    ∀ (n off : Nat), tlvEntriesFrom (buf.take k) n off =
      (tlvEntriesFrom buf n off).takeWhile (fun e => decide (e.2 ≤ k)) := by
  intro n
  induction n with
  | zero => intro off; rfl
  | succ n ih =>
    intro off
    simp only [tlvEntriesFrom]
    rw [parseTLVEntry_take]
    cases h : parseTLVEntry buf off with
    | none => simp
    | some r =>
      obtain ⟨e, off2⟩ := r
      by_cases hr : off2 ≤ k
      · simp [hr, ih off2, List.takeWhile_cons]
      · simp [hr, List.takeWhile_cons]

theorem readWebArgsLoop_eq (buf : List Nat) :
    ∀ (n off : Nat) (m : TLVMap),
      readWebArgsLoop buf n off m =
        (tlvEntriesFrom buf n off).foldl (fun m e => tlvInsertOrAssign e.1.1 e.1.2 m) m := by
  intro n
  induction n with
  | zero => intro off m; rfl
  | succ n ih =>
    intro off m
    simp only [readWebArgsLoop, tlvEntriesFrom]
    cases h : parseTLVEntry buf off with
    | none => rfl
    | some r =>
      obtain ⟨e, off2⟩ := r
      simp [ih]

theorem readWebArgs_fst (buf : List Nat) : (ReadWebArgs buf).1 = decodeWebArgHeader buf := by
  unfold ReadWebArgs
  by_cases h : buf.length = sizeof_WebArgHeader <;> simp [h]

theorem readWebArgs_snd (buf : List Nat) :
    (ReadWebArgs buf).2 =
      tlvMapOfEntries ((tlvEntriesFrom buf (decodeWebArgHeader buf).total_tlv_entries
        sizeof_WebArgHeader).map Prod.fst) := by
  unfold ReadWebArgs tlvMapOfEntries
  by_cases h : buf.length = sizeof_WebArgHeader
  · have hp : parseTLVEntry buf sizeof_WebArgHeader = none := by
      simp only [parseTLVEntry, sizeof_WebArgInputTLV, sizeof_WebArgHeader] at h ⊢
      rw [if_pos (by omega)]
    cases hn : (decodeWebArgHeader buf).total_tlv_entries with
    | zero => simp [h, hn, tlvEntriesFrom]
    | succ n => simp [h, hn, tlvEntriesFrom, hp]
  · simp [h, readWebArgsLoop_eq, List.foldl_map]

/-- C1: for every argument buffer of size at least `sizeof_WebArgHeader` and
every truncation point `k ≥ sizeof_WebArgHeader`, `ReadWebArgs` on the
truncated buffer returns the same header as on the full buffer together with
exactly the maximal prefix of TLV entries that are fully contained in the
first `k` bytes (it stops silently — the return type carries no error — when
the remaining bytes cannot hold the next sub-header or its declared
payload, and the total Lean function never reads out of bounds); moreover a
buffer of exactly `sizeof_WebArgHeader` bytes yields the header with an
empty map, which is a valid result and not an error. -/
theorem c1_decoder_truncation_law (buf : List Nat) (k : Nat)
    (hk : sizeof_WebArgHeader ≤ k) (hb : sizeof_WebArgHeader ≤ buf.length) :
    (ReadWebArgs (buf.take k)).1 = (ReadWebArgs buf).1 ∧
    (ReadWebArgs (buf.take k)).2 =
      tlvMapOfEntries
        (((tlvEntriesFrom buf (ReadWebArgs buf).1.total_tlv_entries
            sizeof_WebArgHeader).takeWhile (fun e => decide (e.2 ≤ k))).map Prod.fst) ∧
    (∀ b : List Nat, b.length = sizeof_WebArgHeader → (ReadWebArgs b).2 = []) := by
  have hk3 : 3 ≤ k := by
    simp only [sizeof_WebArgHeader] at hk; omega
  refine ⟨?_, ?_, ?_⟩
  · rw [readWebArgs_fst, readWebArgs_fst, decodeWebArgHeader_take buf k hk3]
  · rw [readWebArgs_snd, decodeWebArgHeader_take buf k hk3, tlvEntriesFrom_take,
        readWebArgs_fst]
  · intro b hb8
    unfold ReadWebArgs
    simp [hb8]

/-- Concrete decoder input: header declaring 2 entries, a complete entry
`(tag 7, 2 payload bytes)` ending at byte 18, and a complete entry
`(tag 5, 4 payload bytes)` ending at byte 30. -/
def c1Buf : List Nat :=
  [2, 0, 3, 0, 0, 0, 0, 0,
   7, 0, 0, 0, 2, 0, 0, 0, 9, 9,
   5, 0, 0, 0, 4, 0, 0, 0, 1, 2, 3, 4]

theorem c1_decoder_truncation_law_witness :
    (ReadWebArgs (c1Buf.take 20)).1 = (ReadWebArgs c1Buf).1 ∧
    (ReadWebArgs (c1Buf.take 20)).2 =
      tlvMapOfEntries
        (((tlvEntriesFrom c1Buf (ReadWebArgs c1Buf).1.total_tlv_entries
            sizeof_WebArgHeader).takeWhile (fun e => decide (e.2 ≤ 20))).map Prod.fst) ∧
    (ReadWebArgs [2, 0, 3, 0, 0, 0, 0, 0]).2 = [] :=
  ⟨(c1_decoder_truncation_law c1Buf 20 (by decide) (by decide)).1,
   (c1_decoder_truncation_law c1Buf 20 (by decide) (by decide)).2.1,
   (c1_decoder_truncation_law c1Buf 20 (by decide) (by decide)).2.2
     [2, 0, 3, 0, 0, 0, 0, 0] (by decide)⟩

theorem find?_filter_ne_none (k : Nat) (m : TLVMap) :
    (m.filter (fun e => !(e.1 == k))).find? (fun e => e.1 == k) = none := by
  rw [List.find?_eq_none]
  intro x hx
  rw [List.mem_filter] at hx
  simpa using hx.2

theorem tlvGet_insertOrAssign_self (k : Nat) (v : List Nat) (m : TLVMap) :
    tlvGet (tlvInsertOrAssign k v m) k = some v := by
  unfold tlvGet tlvInsertOrAssign
  rw [List.find?_append, find?_filter_ne_none]
  simp

/-- C5: if the structurally complete entries of a buffer end with an entry
`(t, d2)` and an earlier entry `(t, d1)` carries the same tag, the decoded
map binds `t` to the later payload `d2` (the later occurrence overwrites the
earlier value). -/
theorem c5_map_overwrite_law (buf : List Nat) (t : Nat) (d1 d2 : List Nat)
    (l : List (Nat × List Nat))
    (hl : (tlvEntriesFrom buf (decodeWebArgHeader buf).total_tlv_entries
        sizeof_WebArgHeader).map Prod.fst = l ++ [(t, d2)])
    (hmem : (t, d1) ∈ l) :
    tlvGet (ReadWebArgs buf).2 t = some d2 := by
  rw [readWebArgs_snd, hl]
  unfold tlvMapOfEntries
  rw [List.foldl_append]
  simp [tlvGet_insertOrAssign_self]

/-- Concrete decoder input: two complete entries both tagged 7, the first
with payload `[99]`, the second with payload `[4, 5]`. -/
def c5Buf : List Nat :=
  [2, 0, 3, 0, 0, 0, 0, 0,
   7, 0, 0, 0, 1, 0, 0, 0, 99,
   7, 0, 0, 0, 2, 0, 0, 0, 4, 5]

theorem c5_map_overwrite_law_witness :
    tlvGet (ReadWebArgs c5Buf).2 7 = some [4, 5] :=
  c5_map_overwrite_law c5Buf 7 [99] [4, 5] [(7, [99])] (by decide) (by decide)

/-- Embedding of `GetMainURL`: `url.find('?')` (the question mark is byte
63) followed by `substr(0, index)`; the input is returned unchanged when it
contains no question mark. -/
def GetMainURL (url : List Nat) : List Nat :=
  match url.findIdx? (fun b => b == 63) with
  | none => url
  | some i => url.take i

theorem getMainURL_eq_takeWhile (url : List Nat) :
    GetMainURL url = url.takeWhile (fun b => !(b == 63)) := by
  induction url with
  | nil => rfl
  | cons b bs ih =>
    by_cases hb : b = 63
    · subst hb
      have hfind : (63 :: bs).findIdx? (fun x => x == 63) = some 0 := by
        rw [List.findIdx?_cons]
        simp
      have htk : (63 :: bs).takeWhile (fun x => !(x == 63)) = [] := by
        rw [List.takeWhile_cons]
        simp
      unfold GetMainURL
      rw [hfind, htk]
      rfl
    · have hpb : (b == 63) = false := by simp [hb]
      have hfind : (b :: bs).findIdx? (fun x => x == 63) =
          (bs.findIdx? (fun x => x == 63)).map (· + 1) := by
        rw [List.findIdx?_cons, hpb]
        simp
      have htk : (b :: bs).takeWhile (fun x => !(x == 63)) =
          b :: bs.takeWhile (fun x => !(x == 63)) := by
        rw [List.takeWhile_cons, hpb]
        simp
      rw [htk]
      cases h : bs.findIdx? (fun x => x == 63) with
      | none =>
        have hcons : GetMainURL (b :: bs) = b :: bs := by
          unfold GetMainURL
          rw [hfind, h]
          rfl
        have hbs : GetMainURL bs = bs := by
          unfold GetMainURL
          rw [h]
        rw [hcons, ← ih, hbs]
      | some i =>
        have hcons : GetMainURL (b :: bs) = b :: bs.take i := by
          unfold GetMainURL
          rw [hfind, h]
          rfl
        have hbs : GetMainURL bs = bs.take i := by
          unfold GetMainURL
          rw [h]
        rw [hcons, ← ih, hbs]

/-- Modelled from the spec: `FileSys::ContentRecordType`, the archive kinds
used by the Offline mode (declared in a header outside these sources). -/
inductive ContentRecordType where
  | HtmlDocument
  | LegalInformation
  | Data
deriving DecidableEq

/-- An archive-backed virtual filesystem, abstracted as the list of the
relative paths of the files in its tree (paths are byte strings). -/
abbrev Archive := List (List Nat)

/-- The collaborators and host state visible to the Offline-mode cache
materialization: the host filesystem (the set of existing paths), the
system-NAND content collaborator, the general content provider, the
synthesized built-in system archive, and the patch/overlay collaborator. -/
structure OfflineEnv where
  fs : List (List Nat)
  sysNAND : Nat → ContentRecordType → Option Archive
  provider : Nat → ContentRecordType → Option Archive
  synth : Nat → Archive
  patch : Archive → Nat → ContentRecordType → Archive

/-- Embedding of `GetOfflineRomFS`: for `Data` archives the system-NAND
collaborator is consulted and a missing entry falls back (after an error
log) to the synthesized built-in archive — never an error; otherwise the
general content provider is consulted, a missing entry is a hard failure
(`none`), and a found archive is run through the patch manager. -/
def GetOfflineRomFS (env : OfflineEnv) (title_id : Nat) (nca_type : ContentRecordType) :
    Option Archive :=
  if nca_type = ContentRecordType.Data then
    match env.sysNAND title_id nca_type with
    | none => some (env.synth title_id)
    | some nca => some nca
  else
    match env.provider title_id nca_type with
    | none => none
    | some nca => some (env.patch nca title_id nca_type)

/-- Host/collaborator I/O performed by the cache-materialization step. -/
inductive HostEffect where
  | extractArchive : Archive → HostEffect
  | createDirectory : List Nat → HostEffect
  | copyTree : List Nat → HostEffect
deriving DecidableEq

/-- Join a directory path and a relative path with `/` (byte 47). -/
def joinPath (dir rel : List Nat) : List Nat := dir ++ 47 :: rel

/-- Embedding of the cache-materialization tail of
`WebBrowser::InitializeOffline` (lines 313-337), given the already-computed
cache directory and sanitized document path: if the main document (query
string stripped) exists on the host filesystem it returns at once with no
I/O; if the archive cannot be resolved it aborts with no I/O; otherwise it
extracts the archive, creates the cache directory and copies the tree,
after which every file of the archive exists under the cache directory.
Returns the resulting host filesystem and the host I/O performed. -/
def ensureExtracted (env : OfflineEnv) (title_id : Nat) (nca_type : ContentRecordType)
    (cache_dir document : List Nat) : List (List Nat) × List HostEffect :=
  if GetMainURL document ∈ env.fs then (env.fs, [])
  else
    match GetOfflineRomFS env title_id nca_type with
    | none => (env.fs, [])
    | some romfs =>
        (env.fs ++ romfs.map (fun p => joinPath cache_dir p),
         [HostEffect.extractArchive romfs, HostEffect.createDirectory cache_dir,
          HostEffect.copyTree cache_dir])

theorem ensureExtracted_main_exists (env : OfflineEnv) (title_id : Nat)
    (nca_type : ContentRecordType) (cache_dir document : List Nat)
    (h : GetMainURL document ∈ env.fs) :
    ensureExtracted env title_id nca_type cache_dir document = (env.fs, []) := by
  unfold ensureExtracted
  rw [if_pos h]

/-- C3: the existence test gating extraction is performed on the document
path with everything from the first question mark onward discarded:
`GetMainURL` returns the input unchanged when it contains no question mark
and otherwise the prefix before the first one, and whenever that stripped
path exists on the host filesystem `ensureExtracted` performs no I/O even
if the literal path (query string included) does not exist. -/
theorem c3_query_string_insensitive_check (url : List Nat) :
    ((63 : Nat) ∉ url → GetMainURL url = url) ∧
    GetMainURL url = url.takeWhile (fun b => !(b == 63)) ∧
    (∀ (env : OfflineEnv) (title_id : Nat) (nca_type : ContentRecordType)
       (cache_dir document : List Nat), GetMainURL document ∈ env.fs →
         ensureExtracted env title_id nca_type cache_dir document = (env.fs, [])) := by
  refine ⟨?_, getMainURL_eq_takeWhile url, ?_⟩
  · intro h
    rw [getMainURL_eq_takeWhile url, List.takeWhile_eq_self_iff]
    intro x hx
    simp only [Bool.not_eq_true', beq_eq_false_iff_ne, ne_eq]
    intro hxx
    exact h (hxx ▸ hx)
  · intro env title_id nca_type cache_dir document h
    exact ensureExtracted_main_exists env title_id nca_type cache_dir document h

/-- The byte string `index.html?x=1`. -/
def strIndexHtmlQ : List Nat :=
  [105, 110, 100, 101, 120, 46, 104, 116, 109, 108, 63, 120, 61, 49]

/-- The byte string `index.html`. -/
def strIndexHtml : List Nat :=
  [105, 110, 100, 101, 120, 46, 104, 116, 109, 108]

/-- Concrete environment whose host filesystem contains only `index.html`. -/
def env3 : OfflineEnv :=
  ⟨[strIndexHtml], fun _ _ => none, fun _ _ => none, fun _ => [], fun a _ _ => a⟩

theorem c3_query_string_insensitive_check_witness :
    GetMainURL strIndexHtmlQ = strIndexHtml ∧
    ensureExtracted env3 0 ContentRecordType.HtmlDocument [99] strIndexHtmlQ =
      (env3.fs, []) ∧
    strIndexHtmlQ ∉ env3.fs :=
  ⟨by decide,
   (c3_query_string_insensitive_check strIndexHtmlQ).2.2 env3 0
     ContentRecordType.HtmlDocument [99] strIndexHtmlQ (by decide),
   by decide⟩

/-- C2: if the main document (query string stripped) already exists on host
storage when the Offline-mode cache materialization runs, it returns
immediately with no host I/O; when it is absent and the archive resolves,
the first run performs the extraction I/O (archive extraction, cache
directory creation, recursive copy), and — provided the first run
materializes the main document — running the same materialization a second
time is a no-op: no effects, filesystem unchanged. -/
theorem c2_idempotent_extraction (env : OfflineEnv) (title_id : Nat)
    (nca_type : ContentRecordType) (cache_dir document : List Nat)
    (h1 : GetMainURL document ∈
      (ensureExtracted env title_id nca_type cache_dir document).1) :
    (GetMainURL document ∈ env.fs →
       ensureExtracted env title_id nca_type cache_dir document = (env.fs, [])) ∧
    (∀ romfs, GetMainURL document ∉ env.fs →
       GetOfflineRomFS env title_id nca_type = some romfs →
       ensureExtracted env title_id nca_type cache_dir document =
         (env.fs ++ romfs.map (fun p => joinPath cache_dir p),
          [HostEffect.extractArchive romfs, HostEffect.createDirectory cache_dir,
           HostEffect.copyTree cache_dir])) ∧
    ensureExtracted
        { env with fs := (ensureExtracted env title_id nca_type cache_dir document).1 }
        title_id nca_type cache_dir document
      = ((ensureExtracted env title_id nca_type cache_dir document).1, []) := by
  refine ⟨?_, ?_, ?_⟩
  · exact ensureExtracted_main_exists env title_id nca_type cache_dir document
  · intro romfs hnot hrom
    unfold ensureExtracted
    rw [if_neg hnot, hrom]
  · exact ensureExtracted_main_exists _ title_id nca_type cache_dir document h1

/-- Concrete environment with an empty host filesystem and a content
provider holding one archive containing the single file `x`. -/
def envC2 : OfflineEnv :=
  ⟨[], fun _ _ => none, fun _ _ => some [[120]], fun _ => [], fun a _ _ => a⟩

/-- The byte string `c/x`: the document path that extraction of `envC2`'s
archive into cache directory `c` materializes. -/
def c2doc : List Nat := [99, 47, 120]

theorem c2_idempotent_extraction_witness :
    ensureExtracted envC2 0 ContentRecordType.HtmlDocument [99] c2doc =
      (envC2.fs ++ ([[120]] : Archive).map (fun p => joinPath [99] p),
       [HostEffect.extractArchive [[120]], HostEffect.createDirectory [99],
        HostEffect.copyTree [99]]) ∧
    ensureExtracted
        { envC2 with
          fs := (ensureExtracted envC2 0 ContentRecordType.HtmlDocument [99] c2doc).1 }
        0 ContentRecordType.HtmlDocument [99] c2doc
      = ((ensureExtracted envC2 0 ContentRecordType.HtmlDocument [99] c2doc).1, []) :=
  ⟨(c2_idempotent_extraction envC2 0 ContentRecordType.HtmlDocument [99] c2doc
      (by decide)).2.1 [[120]] (by decide) (by decide),
   (c2_idempotent_extraction envC2 0 ContentRecordType.HtmlDocument [99] c2doc
      (by decide)).2.2⟩

/-- C6: during cache materialization, a `Data` archive missing from the
system-NAND content falls back to the synthesized built-in archive for that
title — never an error, and extraction proceeds with it — while a missing
non-`Data` archive in the general content provider is a hard failure:
resolution yields `none` and the materialization aborts with no effects,
before any cache directory is created and leaving the filesystem
unchanged. -/
theorem c6_archive_resolution_split (env : OfflineEnv) (title_id : Nat) :
    (env.sysNAND title_id ContentRecordType.Data = none →
       GetOfflineRomFS env title_id ContentRecordType.Data =
         some (env.synth title_id)) ∧
    (∀ nca_type, nca_type ≠ ContentRecordType.Data →
       env.provider title_id nca_type = none →
       GetOfflineRomFS env title_id nca_type = none) ∧
    (∀ nca_type cache_dir document,
       GetOfflineRomFS env title_id nca_type = none →
       ensureExtracted env title_id nca_type cache_dir document = (env.fs, [])) ∧
    (∀ cache_dir document,
       env.sysNAND title_id ContentRecordType.Data = none →
       GetMainURL document ∉ env.fs →
       ensureExtracted env title_id ContentRecordType.Data cache_dir document =
         (env.fs ++ (env.synth title_id).map (fun p => joinPath cache_dir p),
          [HostEffect.extractArchive (env.synth title_id),
           HostEffect.createDirectory cache_dir,
           HostEffect.copyTree cache_dir])) := by
  refine ⟨?_, ?_, ?_, ?_⟩
  · intro hs
    unfold GetOfflineRomFS
    rw [if_pos rfl, hs]
  · intro nca_type hne hp
    unfold GetOfflineRomFS
    rw [if_neg hne, hp]
  · intro nca_type cache_dir document hrom
    unfold ensureExtracted
    by_cases hm : GetMainURL document ∈ env.fs
    · rw [if_pos hm]
    · rw [if_neg hm, hrom]
  · intro cache_dir document hs hm
    unfold ensureExtracted
    rw [if_neg hm]
    unfold GetOfflineRomFS
    rw [if_pos rfl, hs]

/-- Concrete environment with empty host filesystem, no installed content
anywhere, and a synthesized built-in archive containing the file `t`. -/
def envC6 : OfflineEnv :=
  ⟨[], fun _ _ => none, fun _ _ => none, fun _ => [[116]], fun a _ _ => a⟩

theorem c6_archive_resolution_split_witness :
    GetOfflineRomFS envC6 5 ContentRecordType.Data = some (envC6.synth 5) ∧
    GetOfflineRomFS envC6 5 ContentRecordType.HtmlDocument = none ∧
    ensureExtracted envC6 5 ContentRecordType.HtmlDocument [99] [100] =
      (envC6.fs, []) ∧
    ensureExtracted envC6 5 ContentRecordType.Data [99] [100] =
      (envC6.fs ++ (envC6.synth 5).map (fun p => joinPath [99] p),
       [HostEffect.extractArchive (envC6.synth 5),
        HostEffect.createDirectory [99], HostEffect.copyTree [99]]) :=
  ⟨(c6_archive_resolution_split envC6 5).1 (by decide),
   (c6_archive_resolution_split envC6 5).2.1 ContentRecordType.HtmlDocument
     (by decide) (by decide),
   (c6_archive_resolution_split envC6 5).2.2.1 ContentRecordType.HtmlDocument
     [99] [100] (by decide),
   (c6_archive_resolution_split envC6 5).2.2.2 [99] [100] (by decide) (by decide)⟩

/-- Modelled from the spec: the `WebArgInputTLVType` tag for the
zero-terminated document path (the enum lives in a header outside these
sources; the spec names the tags, the numeric values are chosen distinct). -/
def WebArgTLV_DocumentPath : Nat := 1

/-- Modelled from the spec: the `WebArgInputTLVType` tag for the document
kind. -/
def WebArgTLV_DocumentKind : Nat := 2

/-- Modelled from the spec: the `WebArgInputTLVType` tag for the 64-bit
application id. -/
def WebArgTLV_ApplicationID : Nat := 3

/-- Modelled from the spec: the `WebArgInputTLVType` tag for the 64-bit
system-data id. -/
def WebArgTLV_SystemDataID : Nat := 4

/-- `DocumentKind::OfflineHtmlPage` (value 1: the source indexes the
3-element `RESOURCE_TYPES` array with `document_kind - 1`). -/
def DocumentKind_OfflineHtmlPage : Nat := 1

/-- `DocumentKind::ApplicationLegalInformation` (value 2). -/
def DocumentKind_ApplicationLegalInformation : Nat := 2

/-- `DocumentKind::SystemDataPage` (value 3). -/
def DocumentKind_SystemDataPage : Nat := 3

/-- Embedding of `ParseStringValue` /
`Common::StringFromFixedZeroTerminatedBuffer`: the bytes of the span up to
the first zero byte or the end, whichever comes first. -/
def ParseStringValue (data : List Nat) : List Nat :=
  data.takeWhile (fun b => !(b == 0))

/-- Embedding of `ParseRawValue<u64>`: little-endian reinterpretation of
the payload bytes as a 64-bit value. -/
def ParseRawValue64 (data : List Nat) : Nat :=
  bytesToNat (data.take 8)

/-- Embedding of `ParseRawValue<DocumentKind>` (a 32-bit enum). -/
def ParseRawValue32 (data : List Nat) : Nat :=
  bytesToNat (data.take 4)

/-- The `ContentRequest` derived by Offline-mode initialization: owner
title, archive kind, resource subpath and relative document path. -/
structure ContentRequest where
  title_id : Nat
  nca_type : ContentRecordType
  additional_paths : List Nat
  document_path : List Nat
deriving DecidableEq

/-- The byte string `html-document`. -/
def str_html_document : List Nat :=
  [104, 116, 109, 108, 45, 100, 111, 99, 117, 109, 101, 110, 116]

/-- Embedding of the resolution half of `WebBrowser::InitializeOffline`
(lines 270-295): fetch `DocumentPath` then `DocumentKind` from the TLV map
— a missing required field makes `GetInputTLVData(...).value()` throw
`bad_optional_access` in the source, modelled as `none` — then select the
owner title, archive kind and resource subpath by document kind, fetching
`ApplicationID` or `SystemDataID` where that kind requires it.  An unknown
document kind falls through the `switch` keeping the defaults
(`title_id = 0`, `nca_type = HtmlDocument`, empty subpath), as the source
`switch` has no `default` label. -/
def InitializeOfflineResolve (tlv : TLVMap) (current_title : Nat) :
    Option ContentRequest :=
  match tlvGet tlv WebArgTLV_DocumentPath with
  | none => none
  | some dp =>
    match tlvGet tlv WebArgTLV_DocumentKind with
    | none => none
    | some dk =>
      if ParseRawValue32 dk = DocumentKind_OfflineHtmlPage then
        some ⟨current_title, ContentRecordType.HtmlDocument, str_html_document,
              ParseStringValue dp⟩
      else if ParseRawValue32 dk = DocumentKind_ApplicationLegalInformation then
        match tlvGet tlv WebArgTLV_ApplicationID with
        | none => none
        | some b => some ⟨ParseRawValue64 b, ContentRecordType.LegalInformation, [],
                          ParseStringValue dp⟩
      else if ParseRawValue32 dk = DocumentKind_SystemDataPage then
        match tlvGet tlv WebArgTLV_SystemDataID with
        | none => none
        | some b => some ⟨ParseRawValue64 b, ContentRecordType.Data, [],
                          ParseStringValue dp⟩
      else
        some ⟨0, ContentRecordType.HtmlDocument, [], ParseStringValue dp⟩

/-- C7: for every TLV map containing the required fields, Offline-mode
resolution maps `OfflineHtmlPage` to the current process title with archive
kind `HtmlDocument` and subpath `html-document`; maps
`ApplicationLegalInformation` to the 64-bit `ApplicationID` field with kind
`LegalInformation` and empty subpath; maps `SystemDataPage` to the 64-bit
`SystemDataID` field with kind `Data` and empty subpath; and in all cases
takes the relative document path as the zero-terminated `DocumentPath`
field. -/
theorem c7_content_resolver_mapping (tlv : TLVMap) (current_title : Nat)
    (dp dk : List Nat)
    (hdp : tlvGet tlv WebArgTLV_DocumentPath = some dp)
    (hdk : tlvGet tlv WebArgTLV_DocumentKind = some dk) :
    (ParseRawValue32 dk = DocumentKind_OfflineHtmlPage →
       InitializeOfflineResolve tlv current_title =
         some ⟨current_title, ContentRecordType.HtmlDocument, str_html_document,
               ParseStringValue dp⟩) ∧
    (ParseRawValue32 dk = DocumentKind_ApplicationLegalInformation →
       ∀ b, tlvGet tlv WebArgTLV_ApplicationID = some b →
         InitializeOfflineResolve tlv current_title =
           some ⟨ParseRawValue64 b, ContentRecordType.LegalInformation, [],
                 ParseStringValue dp⟩) ∧
    (ParseRawValue32 dk = DocumentKind_SystemDataPage →
       ∀ b, tlvGet tlv WebArgTLV_SystemDataID = some b →
         InitializeOfflineResolve tlv current_title =
           some ⟨ParseRawValue64 b, ContentRecordType.Data, [],
                 ParseStringValue dp⟩) := by
  refine ⟨?_, ?_, ?_⟩
  · intro h
    simp only [InitializeOfflineResolve, hdp, hdk]
    rw [if_pos h]
  · intro h b hb
    simp only [InitializeOfflineResolve, hdp, hdk]
    rw [if_neg (by simp [h, DocumentKind_OfflineHtmlPage,
          DocumentKind_ApplicationLegalInformation]),
        if_pos h, hb]
  · intro h b hb
    simp only [InitializeOfflineResolve, hdp, hdk]
    rw [if_neg (by simp [h, DocumentKind_OfflineHtmlPage, DocumentKind_SystemDataPage]),
        if_neg (by simp [h, DocumentKind_ApplicationLegalInformation,
          DocumentKind_SystemDataPage]),
        if_pos h, hb]

/-- A TLV map holding a `DocumentPath` of `a` (zero-terminated), a
`DocumentKind` of `SystemDataPage` and a `SystemDataID` of 9. -/
def c7Tlv : TLVMap :=
  [(WebArgTLV_DocumentPath, [97, 0]),
   (WebArgTLV_DocumentKind, [3, 0, 0, 0]),
   (WebArgTLV_SystemDataID, [9, 0, 0, 0, 0, 0, 0, 0])]

theorem c7_content_resolver_mapping_witness :
    InitializeOfflineResolve c7Tlv 42 =
      some ⟨9, ContentRecordType.Data, [], [97]⟩ :=
  (c7_content_resolver_mapping c7Tlv 42 [97, 0] [3, 0, 0, 0]
    (by decide) (by decide)).2.2 (by decide) [9, 0, 0, 0, 0, 0, 0, 0] (by decide)

/-- C8: a TLV map lacking a tag required by the selected document kind —
`DocumentPath` or `DocumentKind` always, `ApplicationID` for
`ApplicationLegalInformation`, `SystemDataID` for `SystemDataPage` — makes
Offline-mode resolution fail (`none`, modelling the `bad_optional_access`
thrown by `GetInputTLVData(...).value()` on a missing field): the request
is never silently defaulted and the applet does not obtain a
`ContentRequest` to proceed with. -/
theorem c8_missing_required_field_fatal (tlv : TLVMap) (current_title : Nat) :
    (tlvGet tlv WebArgTLV_DocumentPath = none →
       InitializeOfflineResolve tlv current_title = none) ∧
    (tlvGet tlv WebArgTLV_DocumentKind = none →
       InitializeOfflineResolve tlv current_title = none) ∧
    (∀ dk, tlvGet tlv WebArgTLV_DocumentKind = some dk →
       ParseRawValue32 dk = DocumentKind_ApplicationLegalInformation →
       tlvGet tlv WebArgTLV_ApplicationID = none →
       InitializeOfflineResolve tlv current_title = none) ∧
    (∀ dk, tlvGet tlv WebArgTLV_DocumentKind = some dk →
       ParseRawValue32 dk = DocumentKind_SystemDataPage →
       tlvGet tlv WebArgTLV_SystemDataID = none →
       InitializeOfflineResolve tlv current_title = none) := by
  refine ⟨?_, ?_, ?_, ?_⟩
  · intro h
    unfold InitializeOfflineResolve
    rw [h]
  · intro h
    unfold InitializeOfflineResolve
    cases hdp : tlvGet tlv WebArgTLV_DocumentPath with
    | none => rfl
    | some dp => rw [h]
  · intro dk hdk h ha
    cases hdp : tlvGet tlv WebArgTLV_DocumentPath with
    | none => simp only [InitializeOfflineResolve, hdp]
    | some dp =>
      simp only [InitializeOfflineResolve, hdp, hdk]
      rw [if_neg (by simp [h, DocumentKind_OfflineHtmlPage,
            DocumentKind_ApplicationLegalInformation]),
          if_pos h, ha]
  · intro dk hdk h hs
    cases hdp : tlvGet tlv WebArgTLV_DocumentPath with
    | none => simp only [InitializeOfflineResolve, hdp]
    | some dp =>
      simp only [InitializeOfflineResolve, hdp, hdk]
      rw [if_neg (by simp [h, DocumentKind_OfflineHtmlPage, DocumentKind_SystemDataPage]),
          if_neg (by simp [h, DocumentKind_ApplicationLegalInformation,
            DocumentKind_SystemDataPage]),
          if_pos h, hs]

theorem c8_missing_required_field_fatal_witness :
    InitializeOfflineResolve [] 42 = none :=
  (c8_missing_required_field_fatal [] 42).1 (by decide)

/-- Modelled from the spec: the `ShimKind::Shop` mode-tag value (the closed
enumeration Shop, Login, Offline, Share, Web, Wifi, Lobby lives in a header
outside these sources; the numeric values are chosen distinct). -/
def ShimKind_Shop : Nat := 1

/-- Modelled from the spec: the `ShimKind::Login` mode-tag value. -/
def ShimKind_Login : Nat := 2

/-- Modelled from the spec: the `ShimKind::Offline` mode-tag value. -/
def ShimKind_Offline : Nat := 3

/-- Modelled from the spec: the `ShimKind::Share` mode-tag value. -/
def ShimKind_Share : Nat := 4

/-- Modelled from the spec: the `ShimKind::Web` mode-tag value. -/
def ShimKind_Web : Nat := 5

/-- Modelled from the spec: the `ShimKind::Wifi` mode-tag value. -/
def ShimKind_Wifi : Nat := 6

/-- Modelled from the spec: the `ShimKind::Lobby` mode-tag value. -/
def ShimKind_Lobby : Nat := 7

/-- Modelled from the spec: the `WebExitReason::EndButtonPressed` value. -/
def WebExitReason_EndButtonPressed : Nat := 0

/-- Modelled from the spec: the fixed capacity of the `last_url` buffer of
`WebCommonReturnValue` (a fixed-size, zero-initialized array). -/
def lastUrlCapacity : Nat := 4096

/-- The `WebCommonReturnValue` record pushed back through the broker:
exit reason, the fixed-capacity URL buffer, and the URL size. -/
structure WebCommonReturnValue where
  exit_reason : Nat
  last_url : List Nat
  last_url_size : Nat
deriving DecidableEq

/-- Embedding of the `WebCommonReturnValue` construction in
`WebBrowserExit`: the URL bytes are `memcpy`-ed over the zero-initialized
fixed-capacity buffer and the size field records the URL length. -/
def encodeReturnValue (exit_reason : Nat) (last_url : List Nat) : WebCommonReturnValue :=
  ⟨exit_reason, last_url ++ List.replicate (lastUrlCapacity - last_url.length) 0,
   last_url.length⟩

/-- The applet-side completion state: the `complete` flag, the result
buffers pushed to the broker, and the number of `SignalStateChanged`
calls. -/
structure BrowserState where
  complete : Bool
  pushed : List WebCommonReturnValue
  signaled : Nat
deriving DecidableEq

/-- The state of a freshly constructed applet: not complete, nothing
pushed, nothing signaled. -/
def initialBrowserState : BrowserState := ⟨false, [], 0⟩

/-- Embedding of `WebBrowser::WebBrowserExit`: sets the `complete` flag,
pushes exactly one encoded result buffer to the broker and signals the
state change exactly once. -/
def WebBrowserExit (st : BrowserState) (exit_reason : Nat) (last_url : List Nat) :
    BrowserState :=
  ⟨true, st.pushed ++ [encodeReturnValue exit_reason last_url], st.signaled + 1⟩

/-- Embedding of `WebBrowser::TransactionComplete`: reads the `complete`
flag. -/
def TransactionComplete (st : BrowserState) : Bool := st.complete

/-- Observable non-broker side effects of `WebBrowser::Execute`: handing
the document to the frontend page presenter, or hitting the
`UNREACHABLE_MSG` branch. -/
inductive ExecEffect where
  | openLocalPage : List Nat → ExecEffect
  | unreachableHit : ExecEffect
deriving DecidableEq

/-- Embedding of the `switch (web_arg_header.shim_kind)` of
`WebBrowser::Execute`: the six stub modes exit immediately through
`WebBrowserExit(EndButtonPressed)` with an empty URL and perform no other
I/O; Offline hands the document path to the frontend collaborator
(`OpenLocalWebPage`) whose completion callback is `offlineExitCallback`;
any other value hits `UNREACHABLE_MSG` and then also exits through
`WebBrowserExit(EndButtonPressed)`. -/
def WebBrowserExecute (shim : Nat) (offline_document : List Nat) (st : BrowserState) :
    BrowserState × List ExecEffect :=
  if shim = ShimKind_Shop then
    (WebBrowserExit st WebExitReason_EndButtonPressed [], [])
  else if shim = ShimKind_Login then
    (WebBrowserExit st WebExitReason_EndButtonPressed [], [])
  else if shim = ShimKind_Offline then
    (st, [ExecEffect.openLocalPage offline_document])
  else if shim = ShimKind_Share then
    (WebBrowserExit st WebExitReason_EndButtonPressed [], [])
  else if shim = ShimKind_Web then
    (WebBrowserExit st WebExitReason_EndButtonPressed [], [])
  else if shim = ShimKind_Wifi then
    (WebBrowserExit st WebExitReason_EndButtonPressed [], [])
  else if shim = ShimKind_Lobby then
    (WebBrowserExit st WebExitReason_EndButtonPressed [], [])
  else
    (WebBrowserExit st WebExitReason_EndButtonPressed [], [ExecEffect.unreachableHit])

/-- Embedding of the completion lambda `ExecuteOffline` passes to
`OpenLocalWebPage`: it forwards the frontend's exit reason and last URL to
`WebBrowserExit`. -/
def offlineExitCallback (st : BrowserState) (exit_reason : Nat) (last_url : List Nat) :
    BrowserState :=
  WebBrowserExit st exit_reason last_url

/-- Outcome of the `Initialize` mode dispatch on the decoded shim kind. -/
inductive InitDispatch where
  | shop
  | login
  | offline
  | share
  | web
  | wifi
  | lobby
  | unreachableHit
deriving DecidableEq

/-- Embedding of the `switch (web_arg_header.shim_kind)` of
`WebBrowser::Initialize`: each of the seven known modes selects its
mode-specific setup; any other value hits `UNREACHABLE_MSG`. -/
def WebBrowserInitDispatch (shim : Nat) : InitDispatch :=
  if shim = ShimKind_Shop then InitDispatch.shop
  else if shim = ShimKind_Login then InitDispatch.login
  else if shim = ShimKind_Offline then InitDispatch.offline
  else if shim = ShimKind_Share then InitDispatch.share
  else if shim = ShimKind_Web then InitDispatch.web
  else if shim = ShimKind_Wifi then InitDispatch.wifi
  else if shim = ShimKind_Lobby then InitDispatch.lobby
  else InitDispatch.unreachableHit

/-- C4: for every mode tag among Shop, Login, Share, Web, Wifi and Lobby
(every mode other than Offline), `Execute` synchronously exits through
`WebBrowserExit` with exit reason `EndButtonPressed` and an empty last URL,
performing no I/O besides delivering that one result through the broker:
exactly one buffer is pushed, recording an empty URL of size 0. -/
theorem c4_mode_stub_exhaustiveness (shim : Nat) (offline_document : List Nat)
    (st : BrowserState)
    (h : shim = ShimKind_Shop ∨ shim = ShimKind_Login ∨ shim = ShimKind_Share ∨
         shim = ShimKind_Web ∨ shim = ShimKind_Wifi ∨ shim = ShimKind_Lobby) :
    WebBrowserExecute shim offline_document st =
      (WebBrowserExit st WebExitReason_EndButtonPressed [], []) ∧
    (WebBrowserExecute shim offline_document st).1.pushed =
      st.pushed ++ [encodeReturnValue WebExitReason_EndButtonPressed []] ∧
    (encodeReturnValue WebExitReason_EndButtonPressed []).last_url_size = 0 := by
  rcases h with h | h | h | h | h | h <;> subst h <;> exact ⟨rfl, rfl, rfl⟩

theorem c4_mode_stub_exhaustiveness_witness :
    WebBrowserExecute ShimKind_Shop [] initialBrowserState =
      (WebBrowserExit initialBrowserState WebExitReason_EndButtonPressed [], []) ∧
    (WebBrowserExecute ShimKind_Shop [] initialBrowserState).1.pushed =
      initialBrowserState.pushed ++
        [encodeReturnValue WebExitReason_EndButtonPressed []] ∧
    (encodeReturnValue WebExitReason_EndButtonPressed []).last_url_size = 0 :=
  c4_mode_stub_exhaustiveness ShimKind_Shop [] initialBrowserState (Or.inl rfl)

/-- C9: for every mode-tag value outside the closed enumeration Shop,
Login, Offline, Share, Web, Wifi, Lobby, both the `Initialize` dispatch and
the `Execute` dispatch fall into the `default` branch and hit
`UNREACHABLE_MSG` (the unreachable-hit marker) instead of silently
selecting some mode's behavior. -/
theorem c9_unknown_modetag_loud_failure (shim : Nat)
    (h : shim ≠ ShimKind_Shop ∧ shim ≠ ShimKind_Login ∧ shim ≠ ShimKind_Offline ∧
         shim ≠ ShimKind_Share ∧ shim ≠ ShimKind_Web ∧ shim ≠ ShimKind_Wifi ∧
         shim ≠ ShimKind_Lobby) :
    WebBrowserInitDispatch shim = InitDispatch.unreachableHit ∧
    (∀ offline_document st,
       (WebBrowserExecute shim offline_document st).2 = [ExecEffect.unreachableHit]) := by
  obtain ⟨h1, h2, h3, h4, h5, h6, h7⟩ := h
  constructor
  · unfold WebBrowserInitDispatch
    rw [if_neg h1, if_neg h2, if_neg h3, if_neg h4, if_neg h5, if_neg h6, if_neg h7]
  · intro offline_document st
    unfold WebBrowserExecute
    rw [if_neg h1, if_neg h2, if_neg h3, if_neg h4, if_neg h5, if_neg h6, if_neg h7]

theorem c9_unknown_modetag_loud_failure_witness :
    WebBrowserInitDispatch 0 = InitDispatch.unreachableHit ∧
    (WebBrowserExecute 0 [] initialBrowserState).2 = [ExecEffect.unreachableHit] :=
  ⟨(c9_unknown_modetag_loud_failure 0
      (by refine ⟨?_, ?_, ?_, ?_, ?_, ?_, ?_⟩ <;> decide)).1,
   (c9_unknown_modetag_loud_failure 0
      (by refine ⟨?_, ?_, ?_, ?_, ?_, ?_, ?_⟩ <;> decide)).2 [] initialBrowserState⟩

/-- C10: every completion path flows through the single exit routine
`WebBrowserExit`, which always sets the `complete` flag, pushes exactly one
encoded result buffer to the broker and signals the state change exactly
once; every non-Offline `Execute` path (the six stubs and the unreachable
default branch) produces its state through `WebBrowserExit`, and the
Offline frontend callback is exactly `WebBrowserExit`; consequently
`TransactionComplete` reads the flag, returning `false` on the initial
state and `true` after any completion. -/
theorem c10_completion_invariant :
    (∀ st exit_reason last_url,
       (WebBrowserExit st exit_reason last_url).complete = true ∧
       (WebBrowserExit st exit_reason last_url).pushed =
         st.pushed ++ [encodeReturnValue exit_reason last_url] ∧
       (WebBrowserExit st exit_reason last_url).signaled = st.signaled + 1) ∧
    (∀ st, TransactionComplete st = st.complete) ∧
    TransactionComplete initialBrowserState = false ∧
    (∀ shim offline_document st, shim ≠ ShimKind_Offline →
       (WebBrowserExecute shim offline_document st).1 =
         WebBrowserExit st WebExitReason_EndButtonPressed []) ∧
    (∀ st exit_reason last_url,
       offlineExitCallback st exit_reason last_url =
         WebBrowserExit st exit_reason last_url) ∧
    (∀ st exit_reason last_url,
       TransactionComplete (WebBrowserExit st exit_reason last_url) = true) := by
  refine ⟨fun st r u => ⟨rfl, rfl, rfl⟩, fun st => rfl, rfl, ?_, fun st r u => rfl,
          fun st r u => rfl⟩
  intro shim offline_document st h
  unfold WebBrowserExecute
  split_ifs with a1 a2 a3 a4 a5 a6 <;> rfl

theorem c10_completion_invariant_witness :
    TransactionComplete
      (WebBrowserExit initialBrowserState WebExitReason_EndButtonPressed []) = true ∧
    (WebBrowserExecute ShimKind_Lobby [] initialBrowserState).1 =
      WebBrowserExit initialBrowserState WebExitReason_EndButtonPressed [] :=
  ⟨c10_completion_invariant.2.2.2.2.2 initialBrowserState
     WebExitReason_EndButtonPressed [],
   c10_completion_invariant.2.2.2.1 ShimKind_Lobby [] initialBrowserState (by decide)⟩
